import Mathlib

/-!
Shallow embedding of the fiz3d/math core: the generic four-component vector
type `Vec4<T>` of src/src/vec4.rs and the meter unit type with its
conversions of src/src/dist/m.rs, together with theorems settling the
specification's claims about them.

External capabilities of the Rust code (the `Float` utility trait's
`is_nan`/`sqrt`, `Display`, and the `Num + NumCast` scalar bound) are
passed explicitly: a function argument models each required trait method,
and a `NumScalar` record models the `Num + NumCast` bound, whose
`NumCast::from` returns `Option` (the source unwraps it, so a `none`
there models the panic of `.unwrap()`).
-/

/-- Vec4 is a generic four-component (3D) vector type
(src/src/vec4.rs, lines 12-18). -/
structure Vec4 (α : Type) where
  x : α
  y : α
  z : α
  w : α
  deriving DecidableEq, Repr

/-- new returns a new vector with the given parameters
(src/src/vec4.rs, lines 41-43). -/
def Vec4.new (x y z w : α) : Vec4 α :=
  ⟨x, y, z, w⟩

/-- fmt formats the vector (src/src/vec4.rs, lines 55-57): the source
writes the literal label `Vec3` followed by the four components. `disp`
models the `fmt::Display` capability of the component type. -/
def Vec4.fmt (disp : α → String) (v : Vec4 α) : String :=
  "Vec3(" ++ disp v.x ++ ", " ++ disp v.y ++ ", " ++ disp v.z ++ ", " ++ disp v.w ++ ")"

/-- is_nan tells if all of this vectors components are NaN
(src/src/vec4.rs, lines 119-124). `isNan` models the external `Float`
trait's per-scalar NaN test. -/
def Vec4.is_nan (isNan : α → Bool) (v : Vec4 α) : Bool :=
  isNan v.x && isNan v.y && isNan v.z && isNan v.w

/-- dot (src/src/vec4.rs, lines 149-151), translated exactly as written:
`self.x*b.x + self.y+b.y + self.z+b.z + self.w+b.w` — multiplication only
in the first term, addition in the `y`, `z`, `w` terms. -/
def Vec4.dot [Add α] [Mul α] (v b : Vec4 α) : α :=
  v.x * b.x + v.y + b.y + v.z + b.z + v.w + b.w

/-- length_sq returns the magnitude squared of this vector
(src/src/vec4.rs, lines 155-157). -/
def Vec4.length_sq [Add α] [Mul α] (v : Vec4 α) : α :=
  v.x * v.x + v.y * v.y + v.z * v.z + v.w * v.w

/-- length returns the magnitude of this vector
(src/src/vec4.rs, line 144): `self.length_sq().sqrt()`. `sqrt` models the
external `Float` trait's square root. -/
def Vec4.length (sqrt : α → α) [Add α] [Mul α] (v : Vec4 α) : α :=
  sqrt v.length_sq

/-- add performs component-wise addition of two vectors
(src/src/vec4.rs, lines 174-181). -/
def Vec4.add [Add α] (a rhs : Vec4 α) : Vec4 α :=
  ⟨a.x + rhs.x, a.y + rhs.y, a.z + rhs.z, a.w + rhs.w⟩

/-- zero returns the zero-value for the vector
(src/src/vec4.rs, lines 486-488): each component is the scalar's additive
identity. -/
def Vec4.zero [Zero α] : Vec4 α :=
  ⟨0, 0, 0, 0⟩

/-- eq tests for component-wise binary equality of two vectors
(src/src/vec4.rs, lines 441-446). -/
def Vec4.eq [DecidableEq α] (a rhs : Vec4 α) : Bool :=
  decide (a.x = rhs.x) && decide (a.y = rhs.y) && decide (a.z = rhs.z) && decide (a.w = rhs.w)

/-- any_less (src/src/vec4.rs, lines 399-402): a strict-less test on any of
the four component pairs. -/
def Vec4.any_less [LT α] [DecidableRel ((· < ·) : α → α → Prop)] (a o : Vec4 α) : Bool :=
  decide (a.x < o.x) || decide (a.y < o.y) || decide (a.z < o.z) || decide (a.w < o.w)

/-- any_greater (src/src/vec4.rs, lines 415-418): a strict-greater test on
any of the four component pairs. -/
def Vec4.any_greater [LT α] [DecidableRel ((· < ·) : α → α → Prop)] (a o : Vec4 α) : Bool :=
  decide (a.x > o.x) || decide (a.y > o.y) || decide (a.z > o.z) || decide (a.w > o.w)

/-- partial_cmp compares the two vectors component-wise
(src/src/vec4.rs, lines 460-470): `Less` when all four components are
strictly less, else `Greater` when all four are strictly greater, else
`Equal` when the vectors are component-wise equal, else no ordering. -/
def Vec4.partial_cmp [LT α] [DecidableRel ((· < ·) : α → α → Prop)] [DecidableEq α]
    (a other : Vec4 α) : Option Ordering :=
  if a.x < other.x ∧ a.y < other.y ∧ a.z < other.z ∧ a.w < other.w then
    some Ordering.lt
  else if a.x > other.x ∧ a.y > other.y ∧ a.z > other.z ∧ a.w > other.w then
    some Ordering.gt
  else if Vec4.eq a other then
    some Ordering.eq
  else
    none

/-- NumScalar models the scalar capability bound `Num + NumCast` of
src/src/dist/m.rs: ring arithmetic plus `NumCast::from`, a cast from an
integer literal that yields `none` when the value does not fit the scalar
type (the source immediately `.unwrap()`s it, so a `none` is a panic). -/
structure NumScalar (α : Type) where
  add : α → α → α
  mul : α → α → α
  div : α → α → α
  fromInt : Int → Option α

/-- M represents meters, wrapping one scalar — the tuple struct
`M<T>(pub T)` produced by `unit!(M)` (src/src/dist/m.rs, line 40); `val`
is the tuple field `.0`. -/
structure M (α : Type) where
  val : α
  deriving DecidableEq, Repr

/-- MM represents millimeters, a one-scalar tuple wrapper like `M`
(declared in the repository's src/dist/mm.rs, used by src/src/dist/m.rs). -/
structure MM (α : Type) where
  val : α
  deriving DecidableEq, Repr

/-- CM represents centimeters, a one-scalar tuple wrapper like `M`
(declared in the repository's src/dist/cm.rs, used by src/src/dist/m.rs). -/
structure CM (α : Type) where
  val : α
  deriving DecidableEq, Repr

/-- KM represents kilometers, a one-scalar tuple wrapper like `M`
(declared in the repository's src/dist/km.rs, used by src/src/dist/m.rs). -/
structure KM (α : Type) where
  val : α
  deriving DecidableEq, Repr

/-- to_mm returns these meters converted to millimeters
(src/src/dist/m.rs, lines 52-54): `MM(self.0 * T::from(1000).unwrap())`.
A failing cast (`none`) propagates, modelling the panic of `.unwrap()`. -/
def M.to_mm (S : NumScalar α) (m : M α) : Option (MM α) :=
  (S.fromInt 1000).map fun f => MM.mk (S.mul m.val f)

/-- to_cm returns these meters converted to centimeters
(src/src/dist/m.rs, lines 67-69): `CM(self.0 * T::from(100).unwrap())`. -/
def M.to_cm (S : NumScalar α) (m : M α) : Option (CM α) :=
  (S.fromInt 100).map fun f => CM.mk (S.mul m.val f)

/-- to_m simply returns self (src/src/dist/m.rs, lines 82-84). -/
def M.to_m (m : M α) : M α :=
  m

/-- to_km returns these meters converted to kilometers
(src/src/dist/m.rs, lines 97-99): `KM(self.0 / T::from(1000).unwrap())`. -/
def M.to_km (S : NumScalar α) (m : M α) : Option (KM α) :=
  (S.fromInt 1000).map fun f => KM.mk (S.div m.val f)

/-- ratScalar: the rational numbers as a `Num + NumCast` scalar. Every
integer literal is exactly representable, so `fromInt` always succeeds;
this models `f64` faithfully on the spec's example values (1.0, 100.0,
1000.0), where the binary floating-point arithmetic is exact, and any
exact-arithmetic scalar. -/
def ratScalar : NumScalar ℚ where
  add := (· + ·)
  mul := (· * ·)
  div := (· / ·)
  fromInt := fun n => some (n : ℚ)

/-- wrap8 reduces an integer into the two's-complement range of `i8`,
[-128, 127]. -/
def wrap8 (n : Int) : Int :=
  (n + 128) % 256 - 128

/-- i8Scalar: Rust's `i8` as a `Num + NumCast` scalar, values being the
integers in [-128, 127]. `<i8 as NumCast>::from(n)` returns `Some` exactly
when `n` fits in that range, else `None`; arithmetic is modelled wrapping
(release-mode two's complement) — no theorem below exercises it, only the
cast. -/
def i8Scalar : NumScalar Int where
  add := fun a b => wrap8 (a + b)
  mul := fun a b => wrap8 (a * b)
  div := fun a b => wrap8 (Int.tdiv a b)
  fromInt := fun n => if -128 ≤ n ∧ n ≤ 127 then some n else none

/-- Component-wise equality of vectors coincides with structural equality. -/
theorem Vec4.eq_true_iff [DecidableEq α] (a b : Vec4 α) :
    Vec4.eq a b = true ↔ (a.x = b.x ∧ a.y = b.y ∧ a.z = b.z ∧ a.w = b.w) := by
  simp [Vec4.eq, and_assoc]

/-- C1: the claim states that `dot(v, b)` is the sum of the component-wise
products `v.x*b.x + v.y*b.y + v.z*b.z + v.w*b.w`. The source instead adds
the `y`, `z`, `w` components: at `v = (1, 2, 3, 4)`, `b = (5, 6, 7, 8)`
the code yields `1*5 + 2+6 + 3+7 + 4+8 = 35`, while the sum of
component-wise products is `70`. -/
theorem dot_failing_input :
    Vec4.dot (Vec4.new (1 : Int) 2 3 4) (Vec4.new 5 6 7 8) = 35 ∧
    (1 * 5 + 2 * 6 + 3 * 7 + 4 * 8 : Int) = 70 := by
  constructor
  · rfl
  · rfl

/-- C2 counterexample: over the `i8` scalar — which satisfies the declared
`Num + NumCast` bound — `to_mm` and `to_km` panic for every input, because
`<i8 as NumCast>::from(1000)` is `None` and the source unwraps it. -/
theorem unit_cast_panic_counterexample :
    M.to_mm i8Scalar (M.mk 0) = none ∧ M.to_km i8Scalar (M.mk 0) = none := by
  constructor
  · decide
  · decide

/-- C2 amended: the unit conversions on `M<T>(x)` succeed without panicking
for every scalar `T` of the `Num + NumCast` bound in which the literal
factors 1000 and 100 cast successfully (`T::from` returns `Some`), and for
every value `x`. -/
theorem unit_conversions_total_of_cast (α : Type) (S : NumScalar α) (x : α)
    (h1000 : (S.fromInt 1000).isSome = true) (h100 : (S.fromInt 100).isSome = true) :
    (M.to_mm S (M.mk x)).isSome = true ∧ (M.to_cm S (M.mk x)).isSome = true ∧
      (M.to_km S (M.mk x)).isSome = true := by
  cases hm : S.fromInt 1000 with
  | none => rw [hm] at h1000; simp at h1000
  | some f =>
    cases hc : S.fromInt 100 with
    | none => rw [hc] at h100; simp at h100
    | some g => simp [M.to_mm, M.to_cm, M.to_km, hm, hc]

/-- C2 witness: over the rationals the casts succeed, so all three
conversions of `M(3)` return a value. -/
theorem unit_conversions_total_witness :
    (M.to_mm ratScalar (M.mk (3 : ℚ))).isSome = true ∧
      (M.to_cm ratScalar (M.mk (3 : ℚ))).isSome = true ∧
      (M.to_km ratScalar (M.mk (3 : ℚ))).isSome = true :=
  unit_conversions_total_of_cast ℚ ratScalar 3 rfl rfl

/-- C4: meter conversions use the exact factors — over the exact-arithmetic
rational scalar (which models `f64` faithfully on the spec's example
values, where the floating-point arithmetic is exact), `M(x).to_mm()` is
`MM(x * 1000)`, `M(x).to_cm()` is `CM(x * 100)`, `M(x).to_km()` is
`KM(x / 1000)`, and in particular `M(1).to_mm() = MM(1000)`,
`M(1).to_cm() = CM(100)`, `M(1000).to_km() = KM(1)`. -/
theorem m_conversion_exact_factors :
    (∀ x : ℚ, M.to_mm ratScalar (M.mk x) = some (MM.mk (x * 1000)) ∧
      M.to_cm ratScalar (M.mk x) = some (CM.mk (x * 100)) ∧
      M.to_km ratScalar (M.mk x) = some (KM.mk (x / 1000))) ∧
    M.to_mm ratScalar (M.mk 1) = some (MM.mk 1000) ∧
    M.to_cm ratScalar (M.mk 1) = some (CM.mk 100) ∧
    M.to_km ratScalar (M.mk 1000) = some (KM.mk 1) := by
  have h : ∀ x : ℚ, M.to_mm ratScalar (M.mk x) = some (MM.mk (x * 1000)) ∧
      M.to_cm ratScalar (M.mk x) = some (CM.mk (x * 100)) ∧
      M.to_km ratScalar (M.mk x) = some (KM.mk (x / 1000)) := by
    intro x
    refine ⟨?_, ?_, ?_⟩ <;> simp [M.to_mm, M.to_cm, M.to_km, ratScalar]
  refine ⟨h, ?_, ?_, ?_⟩
  · simpa using (h 1).1
  · simpa using (h 1).2.1
  · have := (h 1000).2.2
    simpa using this

/-- C5: the identity conversion is a no-op — `to_m` on meters returns its
argument unchanged for every scalar value. -/
theorem to_m_identity (α : Type) (x : α) : M.to_m (M.mk x) = M.mk x := rfl

/-- C3: over a partially ordered scalar, partial comparison is all-or-nothing —
`Less` iff all four components of `a` are strictly less than those of `b`,
`Greater` iff all four are strictly greater, `Equal` iff the vectors are
component-wise equal, and `none` (incomparable) otherwise. -/
theorem partial_cmp_all_or_nothing (α : Type) [PartialOrder α]
    [DecidableRel ((· < ·) : α → α → Prop)] [DecidableEq α] (a b : Vec4 α) :
    (Vec4.partial_cmp a b = some Ordering.lt ↔
      a.x < b.x ∧ a.y < b.y ∧ a.z < b.z ∧ a.w < b.w) ∧
    (Vec4.partial_cmp a b = some Ordering.gt ↔
      a.x > b.x ∧ a.y > b.y ∧ a.z > b.z ∧ a.w > b.w) ∧
    (Vec4.partial_cmp a b = some Ordering.eq ↔
      a.x = b.x ∧ a.y = b.y ∧ a.z = b.z ∧ a.w = b.w) ∧
    (Vec4.partial_cmp a b = none ↔
      ¬(a.x < b.x ∧ a.y < b.y ∧ a.z < b.z ∧ a.w < b.w) ∧
      ¬(a.x > b.x ∧ a.y > b.y ∧ a.z > b.z ∧ a.w > b.w) ∧
      ¬(a.x = b.x ∧ a.y = b.y ∧ a.z = b.z ∧ a.w = b.w)) := by
  have hlg : (a.x < b.x ∧ a.y < b.y ∧ a.z < b.z ∧ a.w < b.w) →
      ¬(a.x > b.x ∧ a.y > b.y ∧ a.z > b.z ∧ a.w > b.w) :=
    fun hl hg => lt_asymm hl.1 hg.1
  have hle : (a.x < b.x ∧ a.y < b.y ∧ a.z < b.z ∧ a.w < b.w) →
      ¬(a.x = b.x ∧ a.y = b.y ∧ a.z = b.z ∧ a.w = b.w) := by
    intro hl he
    rw [he.1] at hl
    exact lt_irrefl _ hl.1
  have hge : (a.x > b.x ∧ a.y > b.y ∧ a.z > b.z ∧ a.w > b.w) →
      ¬(a.x = b.x ∧ a.y = b.y ∧ a.z = b.z ∧ a.w = b.w) := by
    intro hg he
    rw [he.1] at hg
    exact lt_irrefl _ hg.1
  unfold Vec4.partial_cmp
  split_ifs with h1 h2 h3
  · refine ⟨?_, ?_, ?_, ?_⟩ <;> simp_all
  · refine ⟨?_, ?_, ?_, ?_⟩ <;> simp_all
  · rw [Vec4.eq_true_iff] at h3
    refine ⟨?_, ?_, ?_, ?_⟩ <;> simp_all
  · rw [Vec4.eq_true_iff] at h3
    refine ⟨?_, ?_, ?_, ?_⟩ <;> simp_all

/-- C6: any_less and any_greater are existential — `a.any_less b` holds iff
at least one component of `a` is strictly less than the corresponding
component of `b`, and `a.any_greater b` iff at least one is strictly
greater. -/
theorem any_less_any_greater_existential (α : Type) [LT α]
    [DecidableRel ((· < ·) : α → α → Prop)] (a b : Vec4 α) :
    (Vec4.any_less a b = true ↔
      (a.x < b.x ∨ a.y < b.y ∨ a.z < b.z ∨ a.w < b.w)) ∧
    (Vec4.any_greater a b = true ↔
      (a.x > b.x ∨ a.y > b.y ∨ a.z > b.z ∨ a.w > b.w)) := by
  constructor
  · simp [Vec4.any_less, or_assoc]
  · simp [Vec4.any_greater, or_assoc]

/-- C7: the zero vector is a two-sided additive identity — for every vector
`v` over a scalar with an additive identity, `v + zero() == v` and
`zero() + v == v` under the vector's component-wise equality. -/
theorem add_zero_identity (α : Type) [AddZeroClass α] [DecidableEq α] (v : Vec4 α) :
    Vec4.eq (Vec4.add v Vec4.zero) v = true ∧ Vec4.eq (Vec4.add Vec4.zero v) v = true := by
  constructor
  · simp [Vec4.add, Vec4.zero, Vec4.eq]
  · simp [Vec4.add, Vec4.zero, Vec4.eq]

/-- C8: length_sq is the sum of the squares of the four components, and
length is the square root (the external `Float` capability's `sqrt`) of
length_sq. -/
theorem length_sq_and_length (α : Type) [Add α] [Mul α] (sqrt : α → α) (v : Vec4 α) :
    Vec4.length_sq v = v.x * v.x + v.y * v.y + v.z * v.z + v.w * v.w ∧
    Vec4.length sqrt v = sqrt (Vec4.length_sq v) :=
  ⟨rfl, rfl⟩

/-- C9: is_nan is conjunctive, not existential — it returns true iff all
four components are NaN, so a vector with some but not all NaN components
reports false. -/
theorem is_nan_conjunctive (α : Type) (isNan : α → Bool) (v : Vec4 α) :
    (Vec4.is_nan isNan v = true ↔
      (isNan v.x = true ∧ isNan v.y = true ∧ isNan v.z = true ∧ isNan v.w = true)) ∧
    (¬(isNan v.x = true ∧ isNan v.y = true ∧ isNan v.z = true ∧ isNan v.w = true) →
      Vec4.is_nan isNan v = false) := by
  constructor
  · simp [Vec4.is_nan, and_assoc]
  · intro h
    cases hv : Vec4.is_nan isNan v with
    | false => rfl
    | true =>
      exfalso
      apply h
      have := hv
      simp [Vec4.is_nan, and_assoc] at this
      exact this

/-- C10: formatting a vector produces the string "Vec3(x, y, z, w)" — the
label says Vec3 although the type has four components, and all four
components are printed; in particular the source doc-test instance
`Vec4::new(1u8, 5u8, 2u8, 3u8)` formats as "Vec3(1, 5, 2, 3)". -/
theorem fmt_vec3_label (α : Type) (disp : α → String) (v : Vec4 α) :
    Vec4.fmt disp v =
      "Vec3(" ++ disp v.x ++ ", " ++ disp v.y ++ ", " ++ disp v.z ++ ", " ++ disp v.w ++ ")" ∧
    Vec4.fmt (fun n : Nat => toString n) (Vec4.new 1 5 2 3) = "Vec3(1, 5, 2, 3)" := by
  constructor
  · rfl
  · rfl
